import Mathlib

/-!
Verification of the privacy-leak analysis engine of the `whomi` repository
(`src/lib/privacy/analyzer.ts`).

The TypeScript source is shallowly embedded below:

* JavaScript strings are Lean `String`s; `toLowerCase` is modelled by
  mapping `Char.toLower` over the characters.
* A JavaScript `Map` (insertion-ordered) is modelled as an association
  list with an in-place update / append-at-end `set` operation.
* `[...new Set(xs)]` (first-occurrence deduplication) is `dedupFirst`.
* The nested `for (i) for (j = i+1)` loops iterate exactly over
  `upperPairs` of the underlying list.
* JavaScript numbers are modelled as `ℚ` (for the similarity scores and
  the weighted privacy score before rounding) and `Int`/`Nat` where the
  source only ever holds integers; `Math.round` is `jsRound`
  (round half towards positive infinity).
-/

/-- The `privateData` field of a persona (`accounts`, `notes`; the
`signedProofs` field is never read by the analyzer and is omitted). -/
structure PrivateData where
  accounts : List String
  notes : String
  deriving DecidableEq, Repr

/-- A persona as consumed by the analyzer: its `id` and its private data. -/
structure Persona where
  id : String
  privateData : PrivateData
  deriving DecidableEq, Repr

/-- The closed set of warning types of the analyzer. -/
inductive WarnType where
  | account_overlap
  | username_reuse
  | metadata_similarity
  deriving DecidableEq, Repr

/-- The closed set of severities. -/
inductive Severity where
  | low
  | medium
  | high
  deriving DecidableEq, Repr

/-- An analyzer output record. -/
structure PrivacyWarning where
  type : WarnType
  description : String
  severity : Severity
  affectedPersonas : List String
  deriving DecidableEq, Repr

/-- The result record of `calculatePrivacyScore`. -/
structure PrivacyScore where
  score : Int
  grade : String
  accountIsolation : Int
  usernameUniqueness : Int
  metadataSeparation : Int
  deriving DecidableEq, Repr

/-- A node of the privacy graph (`type` is always the string `"persona"`). -/
structure GraphNode where
  id : String
  type : String
  accounts : Nat
  label : String
  deriving DecidableEq, Repr

/-- A link of the privacy graph. -/
structure GraphLink where
  source : String
  target : String
  type : WarnType
  severity : Severity
  deriving DecidableEq, Repr

/-- Model of JavaScript `String.prototype.toLowerCase`. -/
def jsToLowerCase (s : String) : String :=
  String.mk (s.data.map Char.toLower)

/-- Splitting a character list at every occurrence of a separator
character; an empty input yields one empty piece, like JavaScript
`"".split(":")` yielding `[""]`. -/
def splitOnChar (sep : Char) : List Char → List (List Char)
  | [] => [[]]
  | c :: rest =>
    let r := splitOnChar sep rest
    if c = sep then [] :: r
    else (c :: r.headD []) :: r.tail

/-- Model of JavaScript `String.prototype.split` with a single-character
separator. -/
def jsSplit (s : String) (sep : Char) : List String :=
  (splitOnChar sep s.data).map String.mk

/-- Model of `Map.prototype.get` on an insertion-ordered association list. -/
def mapGet (m : List (String × List String)) (k : String) : Option (List String) :=
  (m.find? (fun e => e.1 = k)).map Prod.snd

/-- Model of `Map.prototype.set`: update the existing entry in place, or
append a new entry at the end (JavaScript `Map`s preserve insertion order). -/
def mapSet (m : List (String × List String)) (k : String) (v : List String) :
    List (String × List String) :=
  if m.any (fun e => e.1 = k) then
    m.map (fun e => if e.1 = k then (k, v) else e)
  else
    m ++ [(k, v)]

/-- Model of `[...new Set(xs)]`: deduplication keeping first occurrences. -/
def dedupFirst (l : List String) : List String :=
  l.foldl (fun acc x => if x ∈ acc then acc else acc ++ [x]) []

/-- The index pairs `(i, j)` with `i < j` visited by the source's nested
`for` loops, listed in loop order as the corresponding element pairs. -/
def upperPairs {α : Type} : List α → List (α × α)
  | [] => []
  | x :: xs => xs.map (fun y => (x, y)) ++ upperPairs xs

/-- Model of JavaScript `Math.round`: round half towards positive infinity. -/
def jsRound (q : ℚ) : Int :=
  Int.floor (q + 1 / 2)

/-- Leftmost match of the regular expression `"([^"]+)"`: scan for a double
quote followed by a nonempty run of non-quote characters and a closing
double quote; on failure at a position, resume scanning one character
later. Returns the captured group. -/
def firstQuoted : List Char → Option (List Char)
  | [] => none
  | c :: rest =>
    if c = '"' then
      let content := rest.takeWhile (fun ch => ch ≠ '"')
      if content.length > 0 ∧ rest.drop content.length ≠ [] then
        some content
      else
        firstQuoted rest
    else
      firstQuoted rest

/-- Model of `description.match(/"([^"]+)"/)?.[1]`. -/
def extractQuoted (s : String) : Option String :=
  (firstQuoted s.data).map String.mk

/-- The Levenshtein dynamic-programming matrix of
`calculateStringSimilarity`: `levMatrix a b i j` is the entry
`matrix[i][j]` (`matrix[i][0] = i`, `matrix[0][j] = j`, and the interior
entry is the minimum of deletion, insertion and substitution, with
substitution cost `0` exactly when `a[i-1] === b[j-1]`). -/
def levMatrix (a b : List Char) : Nat → Nat → Nat
  | i, 0 => i
  | 0, j + 1 => j + 1
  | i + 1, j + 1 =>
    min (levMatrix a b i (j + 1) + 1)
      (min (levMatrix a b (i + 1) j + 1)
        (levMatrix a b i j + if a[i]? = b[j]? then 0 else 1))

/-- The full Levenshtein distance `matrix[a.length][b.length]`. -/
def levenshteinDistance (a b : String) : Nat :=
  levMatrix a.data b.data a.data.length b.data.length

/-- `PrivacyAnalyzer.calculateStringSimilarity`: `1.0` on equal strings,
`0.0` when either is empty (and they are unequal), otherwise
`1 - distance / max(len a, len b)`. -/
def calculateStringSimilarity (a b : String) : ℚ :=
  if a = b then 1
  else if a.data.length = 0 ∨ b.data.length = 0 then 0
  else 1 - (levenshteinDistance a b : ℚ) / (max a.data.length b.data.length : ℚ)

/-- The account → persona-id map built by `detectAccountOverlaps`: for each
persona in order, for each account string in order, append the persona id
to the list already mapped to that account. -/
def buildAccountMap (personas : List Persona) : List (String × List String) :=
  personas.foldl (fun m persona =>
    persona.privateData.accounts.foldl (fun m account =>
      let personasWithAccount := (mapGet m account).getD []
      mapSet m account (personasWithAccount ++ [persona.id])) m) []

/-- The `description` text of an `account_overlap` warning. -/
def overlapDescription (account : String) : String :=
  "Account \"" ++ account ++ "\" is used in multiple personas"

/-- `PrivacyAnalyzer.detectAccountOverlaps`: walk the account map in
insertion order and emit a high-severity warning for every account whose
id list has length greater than one. -/
def detectAccountOverlaps (personas : List Persona) : List PrivacyWarning :=
  (buildAccountMap personas).foldl (fun warnings e =>
    if e.2.length > 1 then
      warnings ++ [{ type := WarnType.account_overlap,
                     description := overlapDescription e.1,
                     severity := Severity.high,
                     affectedPersonas := e.2 }]
    else warnings) []

/-- The lowercased username part of an account string of the shape
`platform:username`. -/
def usernameOf (account : String) : String :=
  jsToLowerCase ((jsSplit account ':').getD 1 "")

/-- The username → persona-id map built by `detectUsernamePatterns`: only
accounts splitting into exactly two colon-delimited parts contribute; the
username part is lowercased. -/
def buildUsernameMap (personas : List Persona) : List (String × List String) :=
  personas.foldl (fun m persona =>
    persona.privateData.accounts.foldl (fun m account =>
      if (jsSplit account ':').length = 2 then
        let username := usernameOf account
        let personasWithUsername := (mapGet m username).getD []
        mapSet m username (personasWithUsername ++ [persona.id])
      else m) m) []

/-- The `description` text of a `username_reuse` warning. -/
def reuseDescription (u v : String) : String :=
  "Similar usernames detected: \"" ++ u ++ "\" and \"" ++ v ++ "\""

/-- `PrivacyAnalyzer.detectUsernamePatterns`: compare every unordered pair
of distinct keys of the username map; above similarity `0.7` emit a
medium-severity warning whose affected personas are the deduplicated
concatenation of the two id lists. -/
def detectUsernamePatterns (personas : List Persona) : List PrivacyWarning :=
  let usernameMap := buildUsernameMap personas
  let allUsernames := usernameMap.map Prod.fst
  (upperPairs allUsernames).foldl (fun warnings uv =>
    let similarity := calculateStringSimilarity uv.1 uv.2
    if similarity > 0.7 then
      let affectedPersonas :=
        (mapGet usernameMap uv.1).getD [] ++ (mapGet usernameMap uv.2).getD []
      warnings ++ [{ type := WarnType.username_reuse,
                     description := reuseDescription uv.1 uv.2,
                     severity := Severity.medium,
                     affectedPersonas := dedupFirst affectedPersonas }]
    else warnings) []

/-- `PrivacyAnalyzer.detectMetadataSimilarities`: for every pair of
personas with indices `i < j`, lowercase both notes; when both are
nonempty (JavaScript truthiness of the lowercased strings) and their
similarity exceeds `0.5`, emit a low-severity warning. -/
def detectMetadataSimilarities (personas : List Persona) : List PrivacyWarning :=
  (upperPairs personas).foldl (fun warnings pq =>
    let notesA := jsToLowerCase pq.1.privateData.notes
    let notesB := jsToLowerCase pq.2.privateData.notes
    if notesA ≠ "" ∧ notesB ≠ "" then
      let similarity := calculateStringSimilarity notesA notesB
      if similarity > 0.5 then
        warnings ++ [{ type := WarnType.metadata_similarity,
                       description := "Similar notes detected between personas",
                       severity := Severity.low,
                       affectedPersonas := [pq.1.id, pq.2.id] }]
      else warnings
    else warnings) []

/-- `PrivacyAnalyzer.analyzePrivacy`: empty for at most one persona,
otherwise the three detectors' outputs concatenated in fixed order. -/
def analyzePrivacy (personas : List Persona) : List PrivacyWarning :=
  if personas.length ≤ 1 then []
  else
    detectAccountOverlaps personas ++ detectUsernamePatterns personas ++
      detectMetadataSimilarities personas

/-- `PrivacyAnalyzer.calculatePrivacyScore`: count warnings by type,
derive the three clamped sub-scores, round the weighted sum, and grade by
the first matching threshold. -/
def calculatePrivacyScore (warnings : List PrivacyWarning) : PrivacyScore :=
  let accountOverlaps := (warnings.filter (fun w => w.type = WarnType.account_overlap)).length
  let usernameReuse := (warnings.filter (fun w => w.type = WarnType.username_reuse)).length
  let metadataSimilarity := (warnings.filter (fun w => w.type = WarnType.metadata_similarity)).length
  let accountIsolation : Int := max 0 (100 - (accountOverlaps : Int) * 50)
  let usernameUniqueness : Int := max 0 (100 - (usernameReuse : Int) * 25)
  let metadataSeparation : Int := max 0 (100 - (metadataSimilarity : Int) * 15)
  let score : Int := jsRound
    ((accountIsolation : ℚ) * 0.5 + (usernameUniqueness : ℚ) * 0.3 +
      (metadataSeparation : ℚ) * 0.2)
  let grade : String :=
    if score < 60 then "F"
    else if score < 70 then "D"
    else if score < 80 then "C"
    else if score < 90 then "B"
    else if score < 95 then "A"
    else "A+"
  { score := score, grade := grade, accountIsolation := accountIsolation,
    usernameUniqueness := usernameUniqueness, metadataSeparation := metadataSeparation }

/-- The per-account recommendation text. -/
def removalRecommendation (account : String) : String :=
  "Consider removing account \"" ++ account ++ "\" from all but one persona."

/-- `PrivacyAnalyzer.generateRecommendations`. -/
def generateRecommendations (warnings : List PrivacyWarning) : List String :=
  let recommendations : List String := []
  let accountOverlaps := warnings.filter (fun w => w.type = WarnType.account_overlap)
  let recommendations :=
    if accountOverlaps.length > 0 then
      accountOverlaps.foldl (fun recs warning =>
        match extractQuoted warning.description with
        | some account => recs ++ [removalRecommendation account]
        | none => recs)
        (recommendations ++
          ["Avoid using the same accounts across different personas to maintain separation."])
    else recommendations
  let usernameWarnings := warnings.filter (fun w => w.type = WarnType.username_reuse)
  let recommendations :=
    if usernameWarnings.length > 0 then
      recommendations ++
        ["Use completely different username patterns across personas to avoid correlation."]
    else recommendations
  let metadataWarnings := warnings.filter (fun w => w.type = WarnType.metadata_similarity)
  let recommendations :=
    if metadataWarnings.length > 0 then
      recommendations ++
        ["Avoid using similar language or content in notes across different personas."]
    else recommendations
  let recommendations :=
    if warnings.length > 0 then
      recommendations ++
        ["Consider using different writing styles for each persona to avoid stylometric analysis.",
         "Be mindful of timing patterns - avoid switching between personas at predictable intervals."]
    else
      recommendations ++
        ["Great job! Continue maintaining separation between your personas."]
  recommendations

/-- `PrivacyGraph.generateGraphData`: one node per persona (label is the
first eight characters of the id) and, per warning, one link per unordered
pair of its affected personas. -/
def generateGraphData (personas : List Persona) (warnings : List PrivacyWarning) :
    List GraphNode × List GraphLink :=
  let nodes := personas.map (fun persona =>
    { id := persona.id, type := "persona",
      accounts := persona.privateData.accounts.length,
      label := String.mk (persona.id.data.take 8) : GraphNode })
  let links := warnings.flatMap (fun warning =>
    (upperPairs warning.affectedPersonas).map (fun st =>
      { source := st.1, target := st.2, type := warning.type,
        severity := warning.severity : GraphLink }))
  (nodes, links)

/-! Section: General helpers -/

theorem jsRound_eq {q : ℚ} {n : ℤ} (h1 : (n : ℚ) ≤ q + 1 / 2) (h2 : q + 1 / 2 < n + 1) :
    jsRound q = n := by
  rw [jsRound]
  exact Int.floor_eq_iff.mpr ⟨h1, h2⟩

theorem stringMk_data (s : String) : String.mk s.data = s := by
  cases s
  rfl

theorem stringData_eq_nil {s : String} : s.data = [] ↔ s = "" := by
  cases s with
  | mk l =>
    constructor
    · intro h
      rw [show (String.mk l).data = l from rfl] at h
      rw [h]
    · intro h
      rw [h]

theorem jsToLowerCase_eq_empty_iff (s : String) : jsToLowerCase s = "" ↔ s = "" := by
  rw [jsToLowerCase]
  constructor
  · intro h
    have hd : (String.mk (s.data.map Char.toLower)).data = [] := by
      rw [h]
    rw [show (String.mk (s.data.map Char.toLower)).data = s.data.map Char.toLower from rfl] at hd
    rw [← stringData_eq_nil]
    exact List.map_eq_nil_iff.mp hd
  · intro h
    rw [h]
    rfl

theorem length_le_one_of_nodup_of_all_eq {l : List String} {u : String}
    (hnd : l.Nodup) (hall : ∀ x ∈ l, x = u) : l.length ≤ 1 := by
  cases l with
  | nil => simp
  | cons x xs =>
    cases xs with
    | nil => simp
    | cons y ys =>
      exfalso
      have hx : x = u := hall x (by simp)
      have hy : y = u := hall y (by simp)
      have : x ≠ y := by
        intro he
        exact (List.nodup_cons.mp hnd).1 (he ▸ List.mem_cons_self y ys)
      exact this (hx.trans hy.symm)

/-! Section: `upperPairs` -/

theorem upperPairs_length {α : Type} (l : List α) :
    (upperPairs l).length = l.length.choose 2 := by
  induction l with
  | nil => rfl
  | cons x xs ih =>
    simp only [upperPairs, List.length_append, List.length_map, ih, List.length_cons]
    rw [Nat.choose_succ_succ xs.length 1, Nat.choose_one_right, Nat.add_comm]

theorem upperPairs_of_length_le_one {α : Type} (l : List α) (h : l.length ≤ 1) :
    upperPairs l = [] := by
  cases l with
  | nil => rfl
  | cons x xs =>
    cases xs with
    | nil => rfl
    | cons y ys => simp at h

/-! Section: `dedupFirst` -/

theorem dedupFirst_go_nodup (l : List String) :
    ∀ acc : List String, acc.Nodup →
      (l.foldl (fun acc x => if x ∈ acc then acc else acc ++ [x]) acc).Nodup := by
  induction l with
  | nil => intro acc h; exact h
  | cons x xs ih =>
    intro acc h
    rw [List.foldl_cons]
    by_cases hx : x ∈ acc
    · rw [if_pos hx]
      exact ih acc h
    · rw [if_neg hx]
      refine ih (acc ++ [x]) ?_
      simp [List.nodup_append, h, hx]

theorem dedupFirst_nodup (l : List String) : (dedupFirst l).Nodup :=
  dedupFirst_go_nodup l [] List.nodup_nil

/-! Section: Levenshtein matrix -/

theorem levMatrix_symm (a b : List Char) :
    ∀ (n i j : Nat), i + j ≤ n → levMatrix a b i j = levMatrix b a j i := by
  intro n
  induction n with
  | zero =>
    intro i j h
    have hi : i = 0 := by omega
    have hj : j = 0 := by omega
    subst hi
    subst hj
    simp [levMatrix]
  | succ n ih =>
    intro i j h
    rcases i with _ | i <;> rcases j with _ | j
    · simp [levMatrix]
    · simp [levMatrix]
    · simp [levMatrix]
    · have h1 : i + (j + 1) ≤ n := by omega
      have h2 : (i + 1) + j ≤ n := by omega
      have h3 : i + j ≤ n := by omega
      have hc : (if a[i]? = b[j]? then 0 else 1) = (if b[j]? = a[i]? then 0 else 1) := by
        by_cases hx : a[i]? = b[j]?
        · rw [if_pos hx, if_pos hx.symm]
        · rw [if_neg hx, if_neg (fun he => hx he.symm)]
      rw [levMatrix, levMatrix, ih i (j + 1) h1, ih (i + 1) j h2, ih i j h3, hc]
      omega

theorem levMatrix_le_max (a b : List Char) :
    ∀ (n i j : Nat), i + j ≤ n → levMatrix a b i j ≤ max i j := by
  intro n
  induction n with
  | zero =>
    intro i j h
    have hi : i = 0 := by omega
    have hj : j = 0 := by omega
    subst hi
    subst hj
    simp [levMatrix]
  | succ n ih =>
    intro i j h
    rcases i with _ | i <;> rcases j with _ | j
    · simp [levMatrix]
    · simp [levMatrix]
    · simp [levMatrix]
    · have h3 : i + j ≤ n := by omega
      have hz := ih i j h3
      have hcb : (if a[i]? = b[j]? then 0 else 1) ≤ 1 := by
        split <;> omega
      rw [levMatrix]
      omega

theorem levMatrix_eq_zero (a b : List Char) :
    ∀ (n i j : Nat), i + j ≤ n → levMatrix a b i j = 0 →
      i = j ∧ ∀ k, k < i → a[k]? = b[k]? := by
  intro n
  induction n with
  | zero =>
    intro i j h hz
    have hi : i = 0 := by omega
    have hj : j = 0 := by omega
    subst hi
    subst hj
    exact ⟨rfl, fun k hk => absurd hk (Nat.not_lt_zero k)⟩
  | succ n ih =>
    intro i j h hz
    rcases i with _ | i <;> rcases j with _ | j
    · exact ⟨rfl, fun k hk => absurd hk (Nat.not_lt_zero k)⟩
    · simp [levMatrix] at hz
    · simp [levMatrix] at hz
    · have h3 : i + j ≤ n := by omega
      rw [levMatrix] at hz
      have hcost : levMatrix a b i j + (if a[i]? = b[j]? then 0 else 1) = 0 := by
        omega
      have hrec : levMatrix a b i j = 0 := by omega
      have hc0 : (if a[i]? = b[j]? then 0 else 1) = 0 := by omega
      have hab : a[i]? = b[j]? := by
        by_cases hx : a[i]? = b[j]?
        · exact hx
        · rw [if_neg hx] at hc0
          exact absurd hc0 one_ne_zero
      obtain ⟨hij, hpref⟩ := ih i j h3 hrec
      subst hij
      refine ⟨rfl, fun k hk => ?_⟩
      rcases Nat.lt_or_ge k i with hki | hki
      · exact hpref k hki
      · have : k = i := by omega
        subst this
        exact hab

theorem levenshteinDistance_symm (a b : String) :
    levenshteinDistance a b = levenshteinDistance b a := by
  rw [levenshteinDistance, levenshteinDistance]
  exact levMatrix_symm a.data b.data (a.data.length + b.data.length) _ _ (Nat.le_refl _)

theorem levenshteinDistance_le_max (a b : String) :
    levenshteinDistance a b ≤ max a.data.length b.data.length := by
  rw [levenshteinDistance]
  exact levMatrix_le_max a.data b.data (a.data.length + b.data.length) _ _ (Nat.le_refl _)

theorem eq_of_levenshteinDistance_eq_zero {a b : String}
    (h : levenshteinDistance a b = 0) : a = b := by
  rw [levenshteinDistance] at h
  obtain ⟨hlen, hpref⟩ :=
    levMatrix_eq_zero a.data b.data (a.data.length + b.data.length) _ _ (Nat.le_refl _) h
  have hdata : a.data = b.data := by
    apply List.ext_getElem?
    intro k
    rcases Nat.lt_or_ge k a.data.length with hk | hk
    · exact hpref k hk
    · rw [List.getElem?_eq_none hk, List.getElem?_eq_none (hlen ▸ hk)]
  rw [← stringMk_data a, ← stringMk_data b, hdata]

/-! Section: Similarity claims -/

theorem stringNe_of_length_pos {a : String} (h : a.data.length ≠ 0) : a ≠ "" := by
  intro he
  rw [he] at h
  exact h rfl

theorem stringLength_pos_of_ne {a : String} (h : a ≠ "") : 0 < a.data.length := by
  rcases Nat.eq_zero_or_pos a.data.length with h0 | hpos
  · exact absurd (stringData_eq_nil.mp (List.length_eq_zero.mp h0)) h
  · exact hpos

/-- C3: `calculateStringSimilarity` lands in `[0, 1]`; it is `1` exactly on
equal strings; it is `0` when either string is empty and they differ; and
otherwise it is `1 - distance / max(len a, len b)`. -/
theorem calculateStringSimilarity_spec (a b : String) :
    0 ≤ calculateStringSimilarity a b ∧
    calculateStringSimilarity a b ≤ 1 ∧
    (calculateStringSimilarity a b = 1 ↔ a = b) ∧
    ((a = "" ∨ b = "") → a ≠ b → calculateStringSimilarity a b = 0) ∧
    (a ≠ b → a ≠ "" → b ≠ "" →
      calculateStringSimilarity a b =
        1 - (levenshteinDistance a b : ℚ) / (max a.data.length b.data.length : ℚ)) := by
  by_cases hab : a = b
  · subst hab
    have h1 : calculateStringSimilarity a a = 1 := by
      rw [calculateStringSimilarity, if_pos rfl]
    refine ⟨by rw [h1]; norm_num, by rw [h1], by rw [h1]; simp, ?_, ?_⟩
    · intro _ hne
      exact absurd rfl hne
    · intro hne
      exact absurd rfl hne
  · by_cases hemp : a.data.length = 0 ∨ b.data.length = 0
    · have h0 : calculateStringSimilarity a b = 0 := by
        rw [calculateStringSimilarity, if_neg hab, if_pos hemp]
      refine ⟨by rw [h0], by rw [h0]; norm_num, ?_, fun _ _ => h0, ?_⟩
      · rw [h0]
        constructor
        · intro h
          exact absurd h (by norm_num)
        · intro h
          exact absurd h hab
      · intro _ ha hb
        rcases hemp with h | h
        · exact absurd (stringData_eq_nil.mp (List.length_eq_zero.mp h)) ha
        · exact absurd (stringData_eq_nil.mp (List.length_eq_zero.mp h)) hb
    · push_neg at hemp
      have hsim : calculateStringSimilarity a b =
          1 - (levenshteinDistance a b : ℚ) / (max a.data.length b.data.length : ℚ) := by
        rw [calculateStringSimilarity, if_neg hab,
          if_neg (by push_neg; exact hemp)]
      have hMpos : (0 : ℚ) < (max a.data.length b.data.length : ℚ) := by
        have : 0 < max a.data.length b.data.length := by
          have := hemp.1
          omega
        exact_mod_cast this
      have hdle : (levenshteinDistance a b : ℚ) / (max a.data.length b.data.length : ℚ) ≤ 1 := by
        rw [div_le_one hMpos]
        exact_mod_cast levenshteinDistance_le_max a b
      have hdnn : 0 ≤ (levenshteinDistance a b : ℚ) / (max a.data.length b.data.length : ℚ) :=
        div_nonneg (Nat.cast_nonneg _) (le_of_lt hMpos)
      refine ⟨by rw [hsim]; linarith, by rw [hsim]; linarith, ?_, ?_, fun _ _ _ => hsim⟩
      · constructor
        · intro h1
          rw [hsim] at h1
          have hq : (levenshteinDistance a b : ℚ) / (max a.data.length b.data.length : ℚ) = 0 := by
            linarith
          have hd0 : (levenshteinDistance a b : ℚ) = 0 := by
            rcases div_eq_zero_iff.mp hq with h | h
            · exact h
            · exact absurd h (ne_of_gt hMpos)
          have : levenshteinDistance a b = 0 := by exact_mod_cast hd0
          exact absurd (eq_of_levenshteinDistance_eq_zero this) hab
        · intro h
          exact absurd h hab
      · intro hor _
        exfalso
        rcases hor with h | h
        · exact hemp.1 (by rw [h]; rfl)
        · exact hemp.2 (by rw [h]; rfl)

/-- Witness for C3 at a concrete input: an empty string against a
nonempty one has similarity `0`. -/
theorem calculateStringSimilarity_spec_witness :
    calculateStringSimilarity "" "y" = 0 :=
  (calculateStringSimilarity_spec "" "y").2.2.2.1 (Or.inl rfl) (by decide)

/-- C9: the similarity function is symmetric in its two arguments. -/
theorem calculateStringSimilarity_symm (a b : String) :
    calculateStringSimilarity a b = calculateStringSimilarity b a := by
  by_cases hab : a = b
  · subst hab
    rfl
  · have hba : ¬b = a := fun h => hab h.symm
    rw [calculateStringSimilarity, calculateStringSimilarity, if_neg hab, if_neg hba]
    by_cases hemp : a.data.length = 0 ∨ b.data.length = 0
    · rw [if_pos hemp, if_pos (Or.symm hemp)]
    · rw [if_neg hemp, if_neg (fun h => hemp (Or.symm h)), levenshteinDistance_symm a b,
        max_comm (a.data.length : ℚ) (b.data.length : ℚ)]

/-! Section: Orchestration (C5) -/

/-- C5: `analyzePrivacy` returns nothing for at most one persona, and
otherwise exactly the three detectors' outputs concatenated in the fixed
order overlap, username, metadata, with no cross-detector deduplication. -/
theorem analyzePrivacy_spec (personas : List Persona) :
    (personas.length ≤ 1 → analyzePrivacy personas = []) ∧
    (1 < personas.length → analyzePrivacy personas =
      detectAccountOverlaps personas ++ detectUsernamePatterns personas ++
        detectMetadataSimilarities personas) := by
  constructor
  · intro h
    rw [analyzePrivacy, if_pos h]
  · intro h
    rw [analyzePrivacy, if_neg (by omega)]

/-- Witness for C5: a singleton persona list produces no warnings. -/
theorem analyzePrivacy_spec_witness :
    analyzePrivacy [{ id := "p1", privateData := { accounts := [], notes := "" } }] = [] :=
  (analyzePrivacy_spec _).1 (by decide)

/-! Section: Detector loop characterizations -/

theorem overlapFold_eq (l : List (String × List String)) :
    ∀ init : List PrivacyWarning,
      l.foldl (fun warnings e =>
        if e.2.length > 1 then
          warnings ++ [{ type := WarnType.account_overlap,
                         description := overlapDescription e.1,
                         severity := Severity.high,
                         affectedPersonas := e.2 }]
        else warnings) init =
      init ++ (l.filter (fun e => e.2.length > 1)).map
        (fun e => { type := WarnType.account_overlap,
                    description := overlapDescription e.1,
                    severity := Severity.high,
                    affectedPersonas := e.2 }) := by
  induction l with
  | nil =>
    intro init
    simp
  | cons e es ih =>
    intro init
    rw [List.foldl_cons, List.filter_cons]
    by_cases h : e.2.length > 1
    · rw [if_pos h, ih]
      simp [h]
    · rw [if_neg h, ih]
      simp [h]

theorem detectAccountOverlaps_eq (personas : List Persona) :
    detectAccountOverlaps personas =
      ((buildAccountMap personas).filter (fun e => e.2.length > 1)).map
        (fun e => { type := WarnType.account_overlap,
                    description := overlapDescription e.1,
                    severity := Severity.high,
                    affectedPersonas := e.2 }) := by
  rw [detectAccountOverlaps, overlapFold_eq]
  rw [List.nil_append]

theorem usernameFold_eq (um : List (String × List String)) (l : List (String × String)) :
    ∀ init : List PrivacyWarning,
      l.foldl (fun warnings uv =>
        let similarity := calculateStringSimilarity uv.1 uv.2
        if similarity > 0.7 then
          let affectedPersonas :=
            (mapGet um uv.1).getD [] ++ (mapGet um uv.2).getD []
          warnings ++ [{ type := WarnType.username_reuse,
                         description := reuseDescription uv.1 uv.2,
                         severity := Severity.medium,
                         affectedPersonas := dedupFirst affectedPersonas }]
        else warnings) init =
      init ++ (l.filter (fun uv => calculateStringSimilarity uv.1 uv.2 > 0.7)).map
        (fun uv => { type := WarnType.username_reuse,
                     description := reuseDescription uv.1 uv.2,
                     severity := Severity.medium,
                     affectedPersonas := dedupFirst
                       ((mapGet um uv.1).getD [] ++ (mapGet um uv.2).getD []) }) := by
  induction l with
  | nil =>
    intro init
    simp
  | cons uv l ih =>
    intro init
    rw [List.foldl_cons, List.filter_cons]
    by_cases h : calculateStringSimilarity uv.1 uv.2 > 0.7
    · simp only [if_pos h, ih]
      simp [h]
    · simp only [if_neg h, ih]
      simp [h]

theorem metadataFold_eq (l : List (Persona × Persona)) :
    ∀ init : List PrivacyWarning,
      l.foldl (fun warnings pq =>
        let notesA := jsToLowerCase pq.1.privateData.notes
        let notesB := jsToLowerCase pq.2.privateData.notes
        if notesA ≠ "" ∧ notesB ≠ "" then
          let similarity := calculateStringSimilarity notesA notesB
          if similarity > 0.5 then
            warnings ++ [{ type := WarnType.metadata_similarity,
                           description := "Similar notes detected between personas",
                           severity := Severity.low,
                           affectedPersonas := [pq.1.id, pq.2.id] }]
          else warnings
        else warnings) init =
      init ++ (l.filter (fun pq =>
          (jsToLowerCase pq.1.privateData.notes ≠ "" ∧
            jsToLowerCase pq.2.privateData.notes ≠ "") ∧
          calculateStringSimilarity (jsToLowerCase pq.1.privateData.notes)
            (jsToLowerCase pq.2.privateData.notes) > 0.5)).map
        (fun pq => { type := WarnType.metadata_similarity,
                     description := "Similar notes detected between personas",
                     severity := Severity.low,
                     affectedPersonas := [pq.1.id, pq.2.id] }) := by
  induction l with
  | nil =>
    intro init
    simp
  | cons pq l ih =>
    intro init
    rw [List.foldl_cons, List.filter_cons]
    by_cases hA : jsToLowerCase pq.1.privateData.notes ≠ "" ∧
        jsToLowerCase pq.2.privateData.notes ≠ ""
    · by_cases hS : calculateStringSimilarity (jsToLowerCase pq.1.privateData.notes)
          (jsToLowerCase pq.2.privateData.notes) > 0.5
      · simp only [if_pos hA, if_pos hS, ih, hA, hS]
        simp [hA, hS]
      · simp only [if_pos hA, if_neg hS, ih]
        simp [hA, hS]
    · simp only [if_neg hA, ih]
      simp [hA]

theorem detectUsernamePatterns_eq (personas : List Persona) :
    detectUsernamePatterns personas =
      ((upperPairs ((buildUsernameMap personas).map Prod.fst)).filter
          (fun uv => calculateStringSimilarity uv.1 uv.2 > 0.7)).map
        (fun uv => { type := WarnType.username_reuse,
                     description := reuseDescription uv.1 uv.2,
                     severity := Severity.medium,
                     affectedPersonas := dedupFirst
                       ((mapGet (buildUsernameMap personas) uv.1).getD [] ++
                        (mapGet (buildUsernameMap personas) uv.2).getD []) }) := by
  rw [detectUsernamePatterns]
  rw [usernameFold_eq, List.nil_append]

theorem detectMetadataSimilarities_eq (personas : List Persona) :
    detectMetadataSimilarities personas =
      ((upperPairs personas).filter (fun pq =>
          (jsToLowerCase pq.1.privateData.notes ≠ "" ∧
            jsToLowerCase pq.2.privateData.notes ≠ "") ∧
          calculateStringSimilarity (jsToLowerCase pq.1.privateData.notes)
            (jsToLowerCase pq.2.privateData.notes) > 0.5)).map
        (fun pq => { type := WarnType.metadata_similarity,
                     description := "Similar notes detected between personas",
                     severity := Severity.low,
                     affectedPersonas := [pq.1.id, pq.2.id] }) := by
  rw [detectMetadataSimilarities]
  rw [metadataFold_eq, List.nil_append]

/-- C6: the metadata detector walks unordered persona pairs with `i < j`;
a pair is silently skipped when either source `notes` string is empty, and
otherwise contributes exactly one low-severity `metadata_similarity`
warning on the two ids exactly when the similarity of the lowercased
notes exceeds `0.5`. -/
theorem detectMetadataSimilarities_spec (personas : List Persona) :
    detectMetadataSimilarities personas =
      ((upperPairs personas).filter (fun pq =>
          pq.1.privateData.notes ≠ "" ∧ pq.2.privateData.notes ≠ "" ∧
          calculateStringSimilarity (jsToLowerCase pq.1.privateData.notes)
            (jsToLowerCase pq.2.privateData.notes) > 0.5)).map
        (fun pq => { type := WarnType.metadata_similarity,
                     description := "Similar notes detected between personas",
                     severity := Severity.low,
                     affectedPersonas := [pq.1.id, pq.2.id] }) := by
  rw [detectMetadataSimilarities_eq]
  congr 1
  apply List.filter_congr
  intro pq _
  apply decide_eq_decide.mpr
  rw [ne_eq, ne_eq, jsToLowerCase_eq_empty_iff, jsToLowerCase_eq_empty_iff]
  tauto

/-! Section: Keys of the username multimap -/

theorem map_fst_mapSet (m : List (String × List String)) (k : String) (v : List String) :
    (mapSet m k v).map Prod.fst =
      if m.any (fun e => e.1 = k) then m.map Prod.fst else m.map Prod.fst ++ [k] := by
  rw [mapSet]
  by_cases h : m.any (fun e => e.1 = k)
  · rw [if_pos h, if_pos h, List.map_map]
    apply List.map_congr_left
    intro e _
    by_cases he : e.1 = k
    · simp [he]
    · simp [he]
  · rw [if_neg h, if_neg h]
    simp

theorem mem_map_fst_mapSet (m : List (String × List String)) (k : String)
    (v : List String) (u : String) :
    u ∈ (mapSet m k v).map Prod.fst ↔ u ∈ m.map Prod.fst ∨ u = k := by
  rw [map_fst_mapSet]
  by_cases h : m.any (fun e => e.1 = k)
  · rw [if_pos h]
    constructor
    · intro hu
      exact Or.inl hu
    · intro hu
      rcases hu with hu | hu
      · exact hu
      · subst hu
        rcases List.any_eq_true.mp h with ⟨e, he, hk⟩
        have : e.1 = u := of_decide_eq_true hk
        exact this ▸ List.mem_map_of_mem Prod.fst he
  · rw [if_neg h]
    simp

theorem nodup_map_fst_mapSet (m : List (String × List String)) (k : String)
    (v : List String) (h : (m.map Prod.fst).Nodup) :
    ((mapSet m k v).map Prod.fst).Nodup := by
  rw [map_fst_mapSet]
  by_cases hk : m.any (fun e => e.1 = k)
  · rw [if_pos hk]
    exact h
  · rw [if_neg hk]
    have hnot : k ∉ m.map Prod.fst := by
      intro hmem
      rcases List.mem_map.mp hmem with ⟨e, he, hek⟩
      exact absurd (List.any_eq_true.mpr ⟨e, he, decide_eq_true hek⟩) hk
    simp [List.nodup_append, h, hnot]

theorem mem_keys_usernameInner (pid : String) (accounts : List String) :
    ∀ (m : List (String × List String)) (u : String),
      (u ∈ (accounts.foldl (fun m account =>
          if (jsSplit account ':').length = 2 then
            let username := usernameOf account
            let personasWithUsername := (mapGet m username).getD []
            mapSet m username (personasWithUsername ++ [pid])
          else m) m).map Prod.fst) ↔
        u ∈ m.map Prod.fst ∨
          ∃ acc ∈ accounts, (jsSplit acc ':').length = 2 ∧ u = usernameOf acc := by
  induction accounts with
  | nil =>
    intro m u
    simp
  | cons acc accs ih =>
    intro m u
    rw [List.foldl_cons]
    by_cases h : (jsSplit acc ':').length = 2
    · rw [if_pos h]
      simp only [ih, mem_map_fst_mapSet]
      constructor
      · rintro ((hm | hu) | ⟨a, ha, h2, hu⟩)
        · exact Or.inl hm
        · exact Or.inr ⟨acc, List.mem_cons_self acc accs, h, hu⟩
        · exact Or.inr ⟨a, List.mem_cons_of_mem acc ha, h2, hu⟩
      · rintro (hm | ⟨a, ha, h2, hu⟩)
        · exact Or.inl (Or.inl hm)
        · rcases List.mem_cons.mp ha with rfl | ha2
          · exact Or.inl (Or.inr hu)
          · exact Or.inr ⟨a, ha2, h2, hu⟩
    · rw [if_neg h, ih]
      constructor
      · rintro (hm | ⟨a, ha, h2, hu⟩)
        · exact Or.inl hm
        · exact Or.inr ⟨a, List.mem_cons_of_mem acc ha, h2, hu⟩
      · rintro (hm | ⟨a, ha, h2, hu⟩)
        · exact Or.inl hm
        · rcases List.mem_cons.mp ha with rfl | ha2
          · exact absurd h2 h
          · exact Or.inr ⟨a, ha2, h2, hu⟩

theorem mem_keys_usernameOuter (personas : List Persona) :
    ∀ (m : List (String × List String)) (u : String),
      (u ∈ (personas.foldl (fun m persona =>
          persona.privateData.accounts.foldl (fun m account =>
            if (jsSplit account ':').length = 2 then
              let username := usernameOf account
              let personasWithUsername := (mapGet m username).getD []
              mapSet m username (personasWithUsername ++ [persona.id])
            else m) m) m).map Prod.fst) ↔
        u ∈ m.map Prod.fst ∨
          ∃ p ∈ personas, ∃ acc ∈ p.privateData.accounts,
            (jsSplit acc ':').length = 2 ∧ u = usernameOf acc := by
  induction personas with
  | nil =>
    intro m u
    simp
  | cons p ps ih =>
    intro m u
    rw [List.foldl_cons, ih, mem_keys_usernameInner]
    constructor
    · rintro ((hm | ⟨a, ha, h2, hu⟩) | ⟨q, hq, a, ha, h2, hu⟩)
      · exact Or.inl hm
      · exact Or.inr ⟨p, List.mem_cons_self p ps, a, ha, h2, hu⟩
      · exact Or.inr ⟨q, List.mem_cons_of_mem p hq, a, ha, h2, hu⟩
    · rintro (hm | ⟨q, hq, a, ha, h2, hu⟩)
      · exact Or.inl (Or.inl hm)
      · rcases List.mem_cons.mp hq with rfl | hq2
        · exact Or.inl (Or.inr ⟨a, ha, h2, hu⟩)
        · exact Or.inr ⟨q, hq2, a, ha, h2, hu⟩

theorem mem_keys_buildUsernameMap (personas : List Persona) (u : String) :
    u ∈ (buildUsernameMap personas).map Prod.fst ↔
      ∃ p ∈ personas, ∃ acc ∈ p.privateData.accounts,
        (jsSplit acc ':').length = 2 ∧ u = usernameOf acc := by
  rw [buildUsernameMap, mem_keys_usernameOuter]
  simp

theorem nodup_keys_usernameInner (pid : String) (accounts : List String) :
    ∀ m : List (String × List String), (m.map Prod.fst).Nodup →
      ((accounts.foldl (fun m account =>
          if (jsSplit account ':').length = 2 then
            let username := usernameOf account
            let personasWithUsername := (mapGet m username).getD []
            mapSet m username (personasWithUsername ++ [pid])
          else m) m).map Prod.fst).Nodup := by
  induction accounts with
  | nil =>
    intro m h
    exact h
  | cons acc accs ih =>
    intro m h
    rw [List.foldl_cons]
    by_cases hs : (jsSplit acc ':').length = 2
    · rw [if_pos hs]
      exact ih _ (nodup_map_fst_mapSet _ _ _ h)
    · rw [if_neg hs]
      exact ih m h

theorem nodup_keys_usernameOuter (personas : List Persona) :
    ∀ m : List (String × List String), (m.map Prod.fst).Nodup →
      ((personas.foldl (fun m persona =>
          persona.privateData.accounts.foldl (fun m account =>
            if (jsSplit account ':').length = 2 then
              let username := usernameOf account
              let personasWithUsername := (mapGet m username).getD []
              mapSet m username (personasWithUsername ++ [persona.id])
            else m) m) m).map Prod.fst).Nodup := by
  induction personas with
  | nil =>
    intro m h
    exact h
  | cons p ps ih =>
    intro m h
    rw [List.foldl_cons]
    exact ih _ (nodup_keys_usernameInner p.id p.privateData.accounts m h)

theorem nodup_keys_buildUsernameMap (personas : List Persona) :
    ((buildUsernameMap personas).map Prod.fst).Nodup := by
  rw [buildUsernameMap]
  exact nodup_keys_usernameOuter personas [] List.nodup_nil

/-- C2: the username detector collects lowercased username parts of
accounts splitting into exactly two colon-delimited parts (others are
silently skipped), compares every unordered pair of distinct username
strings, and emits a medium-severity `username_reuse` warning with
deduplicated affected ids exactly when similarity exceeds `0.7`; the
username values are pairwise-distinct map keys, so one persona reusing a
single username on several platforms triggers no comparison. -/
theorem detectUsernamePatterns_spec (personas : List Persona) :
    (detectUsernamePatterns personas =
      ((upperPairs ((buildUsernameMap personas).map Prod.fst)).filter
          (fun uv => calculateStringSimilarity uv.1 uv.2 > 0.7)).map
        (fun uv => { type := WarnType.username_reuse,
                     description := reuseDescription uv.1 uv.2,
                     severity := Severity.medium,
                     affectedPersonas := dedupFirst
                       ((mapGet (buildUsernameMap personas) uv.1).getD [] ++
                        (mapGet (buildUsernameMap personas) uv.2).getD []) })) ∧
    ((buildUsernameMap personas).map Prod.fst).Nodup ∧
    (∀ u, u ∈ (buildUsernameMap personas).map Prod.fst ↔
      ∃ p ∈ personas, ∃ acc ∈ p.privateData.accounts,
        (jsSplit acc ':').length = 2 ∧ u = usernameOf acc) ∧
    (∀ w ∈ detectUsernamePatterns personas,
      w.type = WarnType.username_reuse ∧ w.severity = Severity.medium ∧
        w.affectedPersonas.Nodup) ∧
    (∀ (p : Persona) (u : String),
      (∀ acc ∈ p.privateData.accounts,
        (jsSplit acc ':').length = 2 → usernameOf acc = u) →
      detectUsernamePatterns [p] = []) := by
  refine ⟨detectUsernamePatterns_eq personas, nodup_keys_buildUsernameMap personas,
    mem_keys_buildUsernameMap personas, ?_, ?_⟩
  · intro w hw
    rw [detectUsernamePatterns_eq] at hw
    rcases List.mem_map.mp hw with ⟨uv, _, hweq⟩
    subst hweq
    exact ⟨rfl, rfl, dedupFirst_nodup _⟩
  · intro p u hall
    rw [detectUsernamePatterns_eq]
    have hk : ∀ x ∈ (buildUsernameMap [p]).map Prod.fst, x = u := by
      intro x hx
      rcases (mem_keys_buildUsernameMap [p] x).mp hx with ⟨q, hq, acc, hacc, h2, hux⟩
      rcases List.mem_cons.mp hq with rfl | hq2
      · exact hux.trans (hall acc hacc h2)
      · exact absurd hq2 (List.not_mem_nil q)
    have hle := length_le_one_of_nodup_of_all_eq (nodup_keys_buildUsernameMap [p]) hk
    rw [upperPairs_of_length_le_one _ hle]
    rfl

/-- Witness for C2: a single persona holding the same username on two
platforms yields no username-reuse warning. -/
theorem detectUsernamePatterns_spec_witness :
    detectUsernamePatterns
        [{ id := "p1",
           privateData := { accounts := ["github:alice", "twitter:alice"], notes := "" } }] =
      [] :=
  (detectUsernamePatterns_spec []).2.2.2.2 _ "alice" (by decide)

/-! Section: Scoring (C4) -/

/-- C4: the score derives from per-type warning counts through the clamped
sub-scores, the weighted rounded sum, and first-match grade thresholds; a
single `account_overlap` warning yields sub-score `50`, score `75`, grade
`"C"`, and the empty list yields a perfect `100`/`"A+"` result. -/
theorem calculatePrivacyScore_spec (warnings : List PrivacyWarning) :
    (calculatePrivacyScore warnings).accountIsolation =
      max 0 (100 - (warnings.countP (fun w => w.type = WarnType.account_overlap) : Int) * 50) ∧
    (calculatePrivacyScore warnings).usernameUniqueness =
      max 0 (100 - (warnings.countP (fun w => w.type = WarnType.username_reuse) : Int) * 25) ∧
    (calculatePrivacyScore warnings).metadataSeparation =
      max 0 (100 - (warnings.countP (fun w => w.type = WarnType.metadata_similarity) : Int) * 15) ∧
    (calculatePrivacyScore warnings).score =
      jsRound (((calculatePrivacyScore warnings).accountIsolation : ℚ) * 0.5 +
        ((calculatePrivacyScore warnings).usernameUniqueness : ℚ) * 0.3 +
        ((calculatePrivacyScore warnings).metadataSeparation : ℚ) * 0.2) ∧
    ((calculatePrivacyScore warnings).score < 60 →
      (calculatePrivacyScore warnings).grade = "F") ∧
    (60 ≤ (calculatePrivacyScore warnings).score → (calculatePrivacyScore warnings).score < 70 →
      (calculatePrivacyScore warnings).grade = "D") ∧
    (70 ≤ (calculatePrivacyScore warnings).score → (calculatePrivacyScore warnings).score < 80 →
      (calculatePrivacyScore warnings).grade = "C") ∧
    (80 ≤ (calculatePrivacyScore warnings).score → (calculatePrivacyScore warnings).score < 90 →
      (calculatePrivacyScore warnings).grade = "B") ∧
    (90 ≤ (calculatePrivacyScore warnings).score → (calculatePrivacyScore warnings).score < 95 →
      (calculatePrivacyScore warnings).grade = "A") ∧
    (95 ≤ (calculatePrivacyScore warnings).score →
      (calculatePrivacyScore warnings).grade = "A+") ∧
    (∀ w : PrivacyWarning, w.type = WarnType.account_overlap →
      calculatePrivacyScore [w] =
        { score := 75, grade := "C", accountIsolation := 50,
          usernameUniqueness := 100, metadataSeparation := 100 }) ∧
    calculatePrivacyScore [] =
      { score := 100, grade := "A+", accountIsolation := 100,
        usernameUniqueness := 100, metadataSeparation := 100 } := by
  have W1 : ∀ w : PrivacyWarning, w.type = WarnType.account_overlap →
      calculatePrivacyScore [w] =
        { score := 75, grade := "C", accountIsolation := 50,
          usernameUniqueness := 100, metadataSeparation := 100 } := by
    intro w hw
    have l1 : [w].filter (fun x => x.type = WarnType.account_overlap) = [w] := by
      simp [List.filter_cons, hw]
    have l2 : [w].filter (fun x => x.type = WarnType.username_reuse) = [] := by
      simp [List.filter_cons, hw]
    have l3 : [w].filter (fun x => x.type = WarnType.metadata_similarity) = [] := by
      simp [List.filter_cons, hw]
    have h75 : jsRound (75 : ℚ) = 75 := by
      apply jsRound_eq <;> norm_num
    simp only [calculatePrivacyScore, l1, l2, l3, List.length_cons, List.length_nil]
    norm_num [h75]
  have W2 : calculatePrivacyScore [] =
      { score := 100, grade := "A+", accountIsolation := 100,
        usernameUniqueness := 100, metadataSeparation := 100 } := by
    have h100 : jsRound (100 : ℚ) = 100 := by
      apply jsRound_eq <;> norm_num
    simp only [calculatePrivacyScore, List.filter_nil, List.length_nil]
    norm_num [h100]
  refine ⟨?_, ?_, ?_, ?_, ?_, ?_, ?_, ?_, ?_, ?_, W1, W2⟩
  · simp only [calculatePrivacyScore, List.countP_eq_length_filter]
  · simp only [calculatePrivacyScore, List.countP_eq_length_filter]
  · simp only [calculatePrivacyScore, List.countP_eq_length_filter]
  · rfl
  · intro h1
    simp only [calculatePrivacyScore] at h1 ⊢
    split_ifs <;> first | rfl | omega
  · intro h1 h2
    simp only [calculatePrivacyScore] at h1 h2 ⊢
    split_ifs <;> first | rfl | omega
  · intro h1 h2
    simp only [calculatePrivacyScore] at h1 h2 ⊢
    split_ifs <;> first | rfl | omega
  · intro h1 h2
    simp only [calculatePrivacyScore] at h1 h2 ⊢
    split_ifs <;> first | rfl | omega
  · intro h1 h2
    simp only [calculatePrivacyScore] at h1 h2 ⊢
    split_ifs <;> first | rfl | omega
  · intro h1
    simp only [calculatePrivacyScore] at h1 ⊢
    split_ifs <;> first | rfl | omega

/-- Witness for C4: one concrete `account_overlap` warning scores 75/C. -/
theorem calculatePrivacyScore_spec_witness :
    calculatePrivacyScore
        [{ type := WarnType.account_overlap, description := "d",
           severity := Severity.high, affectedPersonas := [] }] =
      { score := 75, grade := "C", accountIsolation := 50,
        usernameUniqueness := 100, metadataSeparation := 100 } :=
  (calculatePrivacyScore_spec []).2.2.2.2.2.2.2.2.2.2.1 _ rfl

/-! Section: Account-overlap double-count (C1) -/

/-- C1: contrary to the claim, the overlap detector counts raw occurrences
rather than distinct persona ids: a single persona listing the identical
account string twice triggers an `account_overlap` warning by itself, and
the emitted `affectedPersonas` list holds that persona's id twice. -/
theorem detectAccountOverlaps_self_duplicate :
    detectAccountOverlaps
        [{ id := "p1", privateData := { accounts := ["x", "x"], notes := "" } },
         { id := "p2", privateData := { accounts := [], notes := "" } }] =
      [{ type := WarnType.account_overlap,
         description := "Account \"x\" is used in multiple personas",
         severity := Severity.high, affectedPersonas := ["p1", "p1"] }] := by
  decide

/-! Section: Graph transform (C8, C10) -/

/-- C8: the graph transform yields one node per persona carrying its id,
account count and the first eight characters of the id as label (the full
id when shorter), and per warning one link per unordered `i < j` pair of
its affected personas with the warning's type and severity, concatenated
without deduplication; three affected personas yield exactly three links. -/
theorem generateGraphData_spec (personas : List Persona) (warnings : List PrivacyWarning) :
    (generateGraphData personas warnings).1 =
      personas.map (fun persona =>
        { id := persona.id, type := "persona",
          accounts := persona.privateData.accounts.length,
          label := String.mk (persona.id.data.take 8) }) ∧
    (∀ persona ∈ personas, persona.id.data.length ≤ 8 →
      String.mk (persona.id.data.take 8) = persona.id) ∧
    (generateGraphData personas warnings).2 =
      warnings.flatMap (fun warning =>
        (upperPairs warning.affectedPersonas).map (fun st =>
          { source := st.1, target := st.2, type := warning.type,
            severity := warning.severity })) ∧
    (∀ warning : PrivacyWarning, warning.affectedPersonas.length = 3 →
      ((upperPairs warning.affectedPersonas).map (fun st =>
        ({ source := st.1, target := st.2, type := warning.type,
           severity := warning.severity } : GraphLink))).length = 3) := by
  refine ⟨rfl, ?_, rfl, ?_⟩
  · intro p _ hlen
    rw [List.take_of_length_le hlen, stringMk_data]
  · intro w h3
    rw [List.length_map, upperPairs_length, h3]
    rfl

/-- Witness for C8: a warning naming three personas yields three links. -/
theorem generateGraphData_spec_witness :
    ((upperPairs (["x", "y", "z"] : List String)).map (fun st =>
      ({ source := st.1, target := st.2, type := WarnType.account_overlap,
         severity := Severity.high } : GraphLink))).length = 3 :=
  (generateGraphData_spec [] []).2.2.2
    { type := WarnType.account_overlap, description := "d",
      severity := Severity.high, affectedPersonas := ["x", "y", "z"] } rfl

/-- C10: the graph transform does not validate warnings against the
persona list: a warning naming unknown ids produces links although the
node list is empty, so those link endpoints match no node. -/
theorem generateGraphData_no_validation :
    (generateGraphData []
        [{ type := WarnType.account_overlap, description := "d",
           severity := Severity.high, affectedPersonas := ["x", "y"] }]).1 = [] ∧
    (generateGraphData []
        [{ type := WarnType.account_overlap, description := "d",
           severity := Severity.high, affectedPersonas := ["x", "y"] }]).2 =
      [{ source := "x", target := "y", type := WarnType.account_overlap,
         severity := Severity.high }] := by
  exact ⟨rfl, rfl⟩

/-! Section: Recommendations and quoted-substring extraction (C7) -/

theorem takeWhile_append_cons (p : Char → Bool) (l1 : List Char) (x : Char) (t : List Char)
    (h1 : ∀ c ∈ l1, p c = true) (h2 : p x = false) :
    (l1 ++ x :: t).takeWhile p = l1 := by
  induction l1 with
  | nil =>
    simp [List.takeWhile_cons, h2]
  | cons c cs ih =>
    have hc : p c = true := h1 c (by simp)
    simp only [List.cons_append, List.takeWhile_cons, hc, if_true]
    rw [ih (fun d hd => h1 d (by simp [hd]))]

theorem firstQuoted_append_no_quote (pre suf : List Char) (h : ∀ c ∈ pre, c ≠ '"') :
    firstQuoted (pre ++ suf) = firstQuoted suf := by
  induction pre with
  | nil => rfl
  | cons c cs ih =>
    have hc : ¬(c = '"') := h c (by simp)
    rw [List.cons_append, firstQuoted, if_neg hc]
    exact ih (fun d hd => h d (by simp [hd]))

theorem firstQuoted_at_quote (mid tail : List Char)
    (hne : mid ≠ []) (h : ∀ c ∈ mid, c ≠ '"') :
    firstQuoted ('"' :: (mid ++ '"' :: tail)) = some mid := by
  rw [firstQuoted, if_pos rfl]
  have htw : (mid ++ '"' :: tail).takeWhile (fun ch => ch ≠ '"') = mid := by
    apply takeWhile_append_cons
    · intro c hc
      simp [h c hc]
    · simp
  simp only [htw, List.drop_left]
  rw [if_pos ⟨List.length_pos.mpr hne, List.cons_ne_nil _ _⟩]

theorem extractQuoted_overlapDescription (account : String)
    (hne : account ≠ "") (hq : ∀ c ∈ account.data, c ≠ '"') :
    extractQuoted (overlapDescription account) = some account := by
  have hdata : (overlapDescription account).data =
      "Account ".data ++
        ('"' :: (account.data ++ '"' :: " is used in multiple personas".data)) := by
    rw [overlapDescription, String.data_append, String.data_append]
    rw [show ("Account \"" : String).data = "Account ".data ++ ['"'] from by decide]
    rw [show ("\" is used in multiple personas" : String).data =
      '"' :: " is used in multiple personas".data from by decide]
    simp
  have hmid : account.data ≠ [] := fun hf => hne (stringData_eq_nil.mp hf)
  rw [extractQuoted, hdata, firstQuoted_append_no_quote _ _ (by decide),
    firstQuoted_at_quote _ _ hmid hq]
  simp [stringMk_data]

theorem recsFold_eq (l : List PrivacyWarning) :
    ∀ init : List String,
      l.foldl (fun recs warning =>
        match extractQuoted warning.description with
        | some account => recs ++ [removalRecommendation account]
        | none => recs) init =
      init ++ l.filterMap (fun w =>
        (extractQuoted w.description).map removalRecommendation) := by
  induction l with
  | nil =>
    intro init
    simp
  | cons w ws ih =>
    intro init
    rw [List.foldl_cons, List.filterMap_cons]
    cases hx : extractQuoted w.description with
    | none => simp [hx, ih]
    | some a => simp [hx, ih]

theorem generateRecommendations_eq (warnings : List PrivacyWarning) :
    generateRecommendations warnings =
      (if (warnings.filter (fun w => w.type = WarnType.account_overlap)).length > 0 then
        "Avoid using the same accounts across different personas to maintain separation." ::
          (warnings.filter (fun w => w.type = WarnType.account_overlap)).filterMap
            (fun w => (extractQuoted w.description).map removalRecommendation)
      else []) ++
      (if (warnings.filter (fun w => w.type = WarnType.username_reuse)).length > 0 then
        ["Use completely different username patterns across personas to avoid correlation."]
      else []) ++
      (if (warnings.filter (fun w => w.type = WarnType.metadata_similarity)).length > 0 then
        ["Avoid using similar language or content in notes across different personas."]
      else []) ++
      (if warnings.length > 0 then
        ["Consider using different writing styles for each persona to avoid stylometric analysis.",
         "Be mindful of timing patterns - avoid switching between personas at predictable intervals."]
      else ["Great job! Continue maintaining separation between your personas."]) := by
  simp only [generateRecommendations]
  rw [recsFold_eq]
  by_cases h1 : (warnings.filter (fun w => w.type = WarnType.account_overlap)).length > 0 <;>
    by_cases h2 : (warnings.filter (fun w => w.type = WarnType.username_reuse)).length > 0 <;>
      by_cases h3 : (warnings.filter (fun w => w.type = WarnType.metadata_similarity)).length > 0 <;>
        by_cases h4 : warnings.length > 0 <;>
          simp [h1, h2, h3, h4]

/-- C7 counterexample: for an account string containing a double quote
(`a"b`), the detector's description quotes it verbatim, and the
recommendation generator re-extracts only the prefix `a` before the inner
quote, so the per-account recommendation does not name the account the
warning was produced from. -/
theorem generateRecommendations_requote_cex :
    detectAccountOverlaps
        [{ id := "p1", privateData := { accounts := ["a\"b"], notes := "" } },
         { id := "p2", privateData := { accounts := ["a\"b"], notes := "" } }] =
      [{ type := WarnType.account_overlap,
         description := "Account \"a\"b\" is used in multiple personas",
         severity := Severity.high, affectedPersonas := ["p1", "p2"] }] ∧
    generateRecommendations
        [{ type := WarnType.account_overlap,
           description := "Account \"a\"b\" is used in multiple personas",
           severity := Severity.high, affectedPersonas := ["p1", "p2"] }] =
      ["Avoid using the same accounts across different personas to maintain separation.",
       "Consider removing account \"a\" from all but one persona.",
       "Consider using different writing styles for each persona to avoid stylometric analysis.",
       "Be mindful of timing patterns - avoid switching between personas at predictable intervals."] := by
  exact ⟨by decide, by decide⟩

/-- C7 (amended): every warning emitted by the overlap detector carries
the description `Account "<account>" is used in multiple personas` for
the account it is about; `generateRecommendations` emits one per-account
recommendation naming the first quoted substring of each
`account_overlap` warning's description and silently skips descriptions
without one; and for account strings that are nonempty and contain no
double quote, that extraction recovers exactly the account. -/
theorem generateRecommendations_spec (personas : List Persona) (warnings : List PrivacyWarning) :
    (detectAccountOverlaps personas =
      ((buildAccountMap personas).filter (fun e => e.2.length > 1)).map
        (fun e => { type := WarnType.account_overlap,
                    description := overlapDescription e.1,
                    severity := Severity.high,
                    affectedPersonas := e.2 })) ∧
    (generateRecommendations warnings =
      (if (warnings.filter (fun w => w.type = WarnType.account_overlap)).length > 0 then
        "Avoid using the same accounts across different personas to maintain separation." ::
          (warnings.filter (fun w => w.type = WarnType.account_overlap)).filterMap
            (fun w => (extractQuoted w.description).map removalRecommendation)
      else []) ++
      (if (warnings.filter (fun w => w.type = WarnType.username_reuse)).length > 0 then
        ["Use completely different username patterns across personas to avoid correlation."]
      else []) ++
      (if (warnings.filter (fun w => w.type = WarnType.metadata_similarity)).length > 0 then
        ["Avoid using similar language or content in notes across different personas."]
      else []) ++
      (if warnings.length > 0 then
        ["Consider using different writing styles for each persona to avoid stylometric analysis.",
         "Be mindful of timing patterns - avoid switching between personas at predictable intervals."]
      else ["Great job! Continue maintaining separation between your personas."])) ∧
    (∀ account : String, account ≠ "" → (∀ c ∈ account.data, c ≠ '"') →
      extractQuoted (overlapDescription account) = some account) :=
  ⟨detectAccountOverlaps_eq personas, generateRecommendations_eq warnings,
    fun account h1 h2 => extractQuoted_overlapDescription account h1 h2⟩

/-- Witness for C7: a quote-free account round-trips through the
description and the quoted-substring extraction. -/
theorem generateRecommendations_spec_witness :
    extractQuoted (overlapDescription "alice") = some "alice" :=
  (generateRecommendations_spec [] []).2.2 "alice" (by decide) (by decide)
